import Mathlib

/-! FGTurbine: the public accessor and mutator surface of the turbine engine.

A shallow embedding of the class `JSBSim::FGTurbine` declared in
`src/models/propulsion/FGTurbine.h`.

* The private data members become the fields of the structure `FGTurbine`,
  in declaration order and under their own names.
* `double` is the type parameter `D`: the inline accessors and mutators only
  store and return doubles, so every statement about them holds for any
  carrier of the double values.  `int` is `Int`, `bool` is `Bool`.
* `FGFunction*` (the four lookup pointers) is the type parameter `F`, and the
  inherited `FGEngine` sub-object, whose declaration is in `FGEngine.h`, is
  the type parameter `B`, kept as the field `toFGEngine`.
* A `const` member function is a pure function of the engine; a member
  function that is not declared `const` returns its result together with
  the engine it leaves behind; a `void` mutator returns the new engine.
-/

namespace JSBSim

/-- The enumeration `phaseType`, line 167:
`enum phaseType { tpOff, tpRun, tpSpinUp, tpStart, tpStall, tpSeize, tpTrim }`.
It is an unscoped enumeration without a fixed underlying type, so its
values are those of the smallest bit-field that holds the enumerators 0 to
6: the integers 0 to 7.  `val` is the value a `phaseType` object holds; the
value 7 is a value of the type that is not an enumerator. -/
structure phaseType where
  val : Fin 8
  deriving DecidableEq, Repr

/-- The enumerator `tpOff`, value 0. -/
def phaseType.tpOff : phaseType := ⟨0⟩

/-- The enumerator `tpRun`, value 1. -/
def phaseType.tpRun : phaseType := ⟨1⟩

/-- The enumerator `tpSpinUp`, value 2. -/
def phaseType.tpSpinUp : phaseType := ⟨2⟩

/-- The enumerator `tpStart`, value 3. -/
def phaseType.tpStart : phaseType := ⟨3⟩

/-- The enumerator `tpStall`, value 4. -/
def phaseType.tpStall : phaseType := ⟨4⟩

/-- The enumerator `tpSeize`, value 5. -/
def phaseType.tpSeize : phaseType := ⟨5⟩

/-- The enumerator `tpTrim`, value 6. -/
def phaseType.tpTrim : phaseType := ⟨6⟩

/-- The integer value of a `phaseType` object. -/
def phaseType.toInt (p : phaseType) : Int := (p.val.val : Int)

/-- The enumerators of `phaseType` in declaration order. -/
def phaseType.all : List phaseType :=
  [.tpOff, .tpRun, .tpSpinUp, .tpStart, .tpStall, .tpSeize, .tpTrim]

/-- The data members of `FGTurbine`, lines 217 to 276, preceded by the
inherited `FGEngine` sub-object. -/
structure FGTurbine (D F B : Type) where
  toFGEngine : B
  phase : phaseType
  MilThrust : D
  MaxThrust : D
  BypassRatio : D
  TSFC : D
  ATSFC : D
  IdleN1 : D
  IdleN2 : D
  N1 : D
  N2 : D
  N2norm : D
  MaxN1 : D
  MaxN2 : D
  IdleFF : D
  delay : D
  dt : D
  N1_factor : D
  N2_factor : D
  ThrottlePos : D
  AugmentCmd : D
  TAT : D
  N1_spinup : D
  N2_spinup : D
  Stalled : Bool
  Seized : Bool
  Overtemp : Bool
  Fire : Bool
  Injection : Bool
  Augmentation : Bool
  Reversed : Bool
  Cutoff : Bool
  Injected : Int
  Ignition : Int
  Augmented : Int
  AugMethod : Int
  EGT_degC : D
  EPR : D
  OilPressure_psi : D
  OilTemp_degK : D
  BleedDemand : D
  InletPosition : D
  NozzlePosition : D
  correctedTSFC : D
  InjectionTimer : D
  InjectionTime : D
  IdleThrustLookup : F
  MilThrustLookup : F
  MaxThrustLookup : F
  InjectionLookup : F
  deriving DecidableEq, Repr

variable {D F B : Type}

/-! ## Accessors (lines 180 to 199) -/

/-- Line 180: `phaseType GetPhase(void) { return phase; }`, not `const`. -/
def GetPhase (e : FGTurbine D F B) : phaseType × FGTurbine D F B := (e.phase, e)

/-- Line 182: `bool GetOvertemp(void) const {return Overtemp; }`. -/
def GetOvertemp (e : FGTurbine D F B) : Bool := e.Overtemp

/-- Line 183: `bool GetInjection(void) const {return Injection;}`. -/
def GetInjection (e : FGTurbine D F B) : Bool := e.Injection

/-- Line 184: `bool GetFire(void) const { return Fire; }`. -/
def GetFire (e : FGTurbine D F B) : Bool := e.Fire

/-- Line 185: `bool GetAugmentation(void) const {return Augmentation;}`. -/
def GetAugmentation (e : FGTurbine D F B) : Bool := e.Augmentation

/-- Line 186: `bool GetReversed(void) const { return Reversed; }`. -/
def GetReversed (e : FGTurbine D F B) : Bool := e.Reversed

/-- Line 187: `bool GetCutoff(void) const { return Cutoff; }`. -/
def GetCutoff (e : FGTurbine D F B) : Bool := e.Cutoff

/-- Line 188: `int GetIgnition(void) const {return Ignition;}`. -/
def GetIgnition (e : FGTurbine D F B) : Int := e.Ignition

/-- Line 190: `double GetInlet(void) const { return InletPosition; }`. -/
def GetInlet (e : FGTurbine D F B) : D := e.InletPosition

/-- Line 191: `double GetNozzle(void) const { return NozzlePosition; }`. -/
def GetNozzle (e : FGTurbine D F B) : D := e.NozzlePosition

/-- Line 192: `double GetBleedDemand(void) const {return BleedDemand;}`. -/
def GetBleedDemand (e : FGTurbine D F B) : D := e.BleedDemand

/-- Line 193: `double GetN1(void) const {return N1;}`. -/
def GetN1 (e : FGTurbine D F B) : D := e.N1

/-- Line 194: `double GetN2(void) const {return N2;}`. -/
def GetN2 (e : FGTurbine D F B) : D := e.N2

/-- Line 195: `double GetEPR(void) const {return EPR;}`. -/
def GetEPR (e : FGTurbine D F B) : D := e.EPR

/-- Line 196: `double GetEGT(void) const {return EGT_degC;}`. -/
def GetEGT (e : FGTurbine D F B) : D := e.EGT_degC

/-- Line 198: `double getOilPressure_psi () const {return OilPressure_psi;}`. -/
def getOilPressure_psi (e : FGTurbine D F B) : D := e.OilPressure_psi

/-- Line 199: `double getOilTemp_degF (void) {return KelvinToFahrenheit(OilTemp_degK);}`,
not `const`.  The inherited static helper `KelvinToFahrenheit` is declared
outside this header and is the parameter of the same name. -/
def getOilTemp_degF (KelvinToFahrenheit : D → D) (e : FGTurbine D F B) :
    D × FGTurbine D F B :=
  (KelvinToFahrenheit e.OilTemp_degK, e)

/-! ## Mutators (lines 201 to 208) -/

/-- Line 201: `void SetInjection(bool injection) {Injection = injection;}`. -/
def SetInjection (injection : Bool) (e : FGTurbine D F B) : FGTurbine D F B :=
  { e with Injection := injection }

/-- Line 202: `void SetIgnition(int ignition) {Ignition = ignition;}`. -/
def SetIgnition (ignition : Int) (e : FGTurbine D F B) : FGTurbine D F B :=
  { e with Ignition := ignition }

/-- Line 203: `void SetAugmentation(bool augmentation) {Augmentation = augmentation;}`. -/
def SetAugmentation (augmentation : Bool) (e : FGTurbine D F B) : FGTurbine D F B :=
  { e with Augmentation := augmentation }

/-- Line 204: `void SetPhase( phaseType p ) { phase = p; }`. -/
def SetPhase (p : phaseType) (e : FGTurbine D F B) : FGTurbine D F B :=
  { e with phase := p }

/-- Line 205: `void SetEPR(double epr) {EPR = epr;}`. -/
def SetEPR (epr : D) (e : FGTurbine D F B) : FGTurbine D F B :=
  { e with EPR := epr }

/-- Line 206: `void SetBleedDemand(double bleedDemand) {BleedDemand = bleedDemand;}`. -/
def SetBleedDemand (bleedDemand : D) (e : FGTurbine D F B) : FGTurbine D F B :=
  { e with BleedDemand := bleedDemand }

/-- Line 207: `void SetReverse(bool reversed) { Reversed = reversed; }`. -/
def SetReverse (reversed : Bool) (e : FGTurbine D F B) : FGTurbine D F B :=
  { e with Reversed := reversed }

/-- Line 208: `void SetCutoff(bool cutoff) { Cutoff = cutoff; }`. -/
def SetCutoff (cutoff : Bool) (e : FGTurbine D F B) : FGTurbine D F B :=
  { e with Cutoff := cutoff }

/-! ## Calls of the public surface -/

/-- The eight inline mutators of lines 201 to 208, by name. -/
inductive SetterName where
  | SetInjection
  | SetIgnition
  | SetAugmentation
  | SetPhase
  | SetEPR
  | SetBleedDemand
  | SetReverse
  | SetCutoff
  deriving DecidableEq, Repr

/-- One call of a public mutator together with its argument. -/
inductive SetterCall (D : Type) where
  | SetInjection (injection : Bool)
  | SetIgnition (ignition : Int)
  | SetAugmentation (augmentation : Bool)
  | SetPhase (p : phaseType)
  | SetEPR (epr : D)
  | SetBleedDemand (bleedDemand : D)
  | SetReverse (reversed : Bool)
  | SetCutoff (cutoff : Bool)
  deriving DecidableEq, Repr

/-- The mutator a call invokes. -/
def SetterCall.name : SetterCall D → SetterName
  | .SetInjection _ => .SetInjection
  | .SetIgnition _ => .SetIgnition
  | .SetAugmentation _ => .SetAugmentation
  | .SetPhase _ => .SetPhase
  | .SetEPR _ => .SetEPR
  | .SetBleedDemand _ => .SetBleedDemand
  | .SetReverse _ => .SetReverse
  | .SetCutoff _ => .SetCutoff

/-- The engine after one mutator call. -/
def SetterCall.apply : SetterCall D → FGTurbine D F B → FGTurbine D F B
  | .SetInjection injection, e => JSBSim.SetInjection injection e
  | .SetIgnition ignition, e => JSBSim.SetIgnition ignition e
  | .SetAugmentation augmentation, e => JSBSim.SetAugmentation augmentation e
  | .SetPhase p, e => JSBSim.SetPhase p e
  | .SetEPR epr, e => JSBSim.SetEPR epr e
  | .SetBleedDemand bleedDemand, e => JSBSim.SetBleedDemand bleedDemand e
  | .SetReverse reversed, e => JSBSim.SetReverse reversed e
  | .SetCutoff cutoff, e => JSBSim.SetCutoff cutoff e

/-- The engine after a sequence of mutator calls, the head of the list first. -/
def applySetters : List (SetterCall D) → FGTurbine D F B → FGTurbine D F B
  | [], e => e
  | c :: cs, e => applySetters cs (c.apply e)

/-- The seventeen inline accessors of lines 180 to 199, by name. -/
inductive Getter where
  | GetPhase
  | GetOvertemp
  | GetInjection
  | GetFire
  | GetAugmentation
  | GetReversed
  | GetCutoff
  | GetIgnition
  | GetInlet
  | GetNozzle
  | GetBleedDemand
  | GetN1
  | GetN2
  | GetEPR
  | GetEGT
  | getOilPressure_psi
  | getOilTemp_degF
  deriving DecidableEq, Repr

/-- What an accessor hands back: a phase, a `bool`, an `int` or a `double`. -/
inductive Value (D : Type) where
  | phase (p : phaseType)
  | bool (b : Bool)
  | int (i : Int)
  | double (d : D)
  deriving DecidableEq, Repr

/-- One call of a public accessor: the value returned and the engine after
the call.  A `const` accessor cannot touch the engine; for the two
accessors that are not `const` the engine is the one their body leaves. -/
def callGetter (KelvinToFahrenheit : D → D) :
    Getter → FGTurbine D F B → Value D × FGTurbine D F B
  | .GetPhase, e => ((JSBSim.GetPhase e).1 |> Value.phase, (JSBSim.GetPhase e).2)
  | .GetOvertemp, e => (Value.bool (JSBSim.GetOvertemp e), e)
  | .GetInjection, e => (Value.bool (JSBSim.GetInjection e), e)
  | .GetFire, e => (Value.bool (JSBSim.GetFire e), e)
  | .GetAugmentation, e => (Value.bool (JSBSim.GetAugmentation e), e)
  | .GetReversed, e => (Value.bool (JSBSim.GetReversed e), e)
  | .GetCutoff, e => (Value.bool (JSBSim.GetCutoff e), e)
  | .GetIgnition, e => (Value.int (JSBSim.GetIgnition e), e)
  | .GetInlet, e => (Value.double (JSBSim.GetInlet e), e)
  | .GetNozzle, e => (Value.double (JSBSim.GetNozzle e), e)
  | .GetBleedDemand, e => (Value.double (JSBSim.GetBleedDemand e), e)
  | .GetN1, e => (Value.double (JSBSim.GetN1 e), e)
  | .GetN2, e => (Value.double (JSBSim.GetN2 e), e)
  | .GetEPR, e => (Value.double (JSBSim.GetEPR e), e)
  | .GetEGT, e => (Value.double (JSBSim.GetEGT e), e)
  | .getOilPressure_psi, e => (Value.double (JSBSim.getOilPressure_psi e), e)
  | .getOilTemp_degF, e =>
      (Value.double (JSBSim.getOilTemp_degF KelvinToFahrenheit e).1,
        (JSBSim.getOilTemp_degF KelvinToFahrenheit e).2)

/-- The public member functions the header declares and `FGTurbine.cpp`
defines, `ResetToIC` apart (lines 169 to 171, 178, 209, 212, 213). -/
inductive ExternalOp where
  | Calculate
  | CalcFuelNeed
  | GetPowerAvailable
  | Seek
  | InitRunning
  | GetEngineLabels
  | GetEngineValues
  deriving DecidableEq, Repr

/-- One call of a public operation other than `ResetToIC`: a mutator of the
header, an accessor of the header, or an operation defined outside the
header together with its arguments and surroundings `x`. -/
inductive PublicCall (D X : Type) where
  | setter (c : SetterCall D)
  | getter (g : Getter)
  | external (o : ExternalOp) (x : X)
  deriving DecidableEq, Repr

/-- The engine after one public call.  The effect on the engine of the
operations defined outside the header is the parameter `ext`. -/
def PublicCall.apply {X : Type} (KelvinToFahrenheit : D → D)
    (ext : ExternalOp → X → FGTurbine D F B → FGTurbine D F B) :
    PublicCall D X → FGTurbine D F B → FGTurbine D F B
  | .setter c, e => c.apply e
  | .getter g, e => (callGetter KelvinToFahrenheit g e).2
  | .external o x, e => ext o x e

/-- The four fault flags `Stalled`, `Seized`, `Overtemp`, `Fire` (lines 240 to 243). -/
def faultFlags (e : FGTurbine D F B) : Bool × Bool × Bool × Bool :=
  (e.Stalled, e.Seized, e.Overtemp, e.Fire)

/-- The configuration constants of the engine among the private fields. -/
structure EngineConstants (D : Type) where
  MilThrust : D
  MaxThrust : D
  BypassRatio : D
  TSFC : D
  ATSFC : D
  IdleN1 : D
  IdleN2 : D
  MaxN1 : D
  MaxN2 : D
  N1_spinup : D
  N2_spinup : D
  Augmented : Int
  AugMethod : Int
  Injected : Int
  InjectionTime : D
  deriving DecidableEq, Repr

/-- The configuration constants an engine holds. -/
def engineConstants (e : FGTurbine D F B) : EngineConstants D where
  MilThrust := e.MilThrust
  MaxThrust := e.MaxThrust
  BypassRatio := e.BypassRatio
  TSFC := e.TSFC
  ATSFC := e.ATSFC
  IdleN1 := e.IdleN1
  IdleN2 := e.IdleN2
  MaxN1 := e.MaxN1
  MaxN2 := e.MaxN2
  N1_spinup := e.N1_spinup
  N2_spinup := e.N2_spinup
  Augmented := e.Augmented
  AugMethod := e.AugMethod
  Injected := e.Injected
  InjectionTime := e.InjectionTime

/-! ## Member functions declared in the header and defined in `FGTurbine.cpp`

Their bodies are not part of the header.  They are modelled on the
specification, over exact rational arithmetic for `double`. -/

/-- Modelled from the spec: the body of `FGTurbine::Seek` (declared at line
178, defined in `FGTurbine.cpp`).  The lag filter advances the current value
`var` toward `target` by at most rate times the member `dt`, never
overshooting the target, with the rate `accel` when moving up and the rate
`decel` when moving down.  `var` stands for the `double` the pointer
argument addresses; the result is the value returned. -/
def Seek (e : FGTurbine ℚ F B) (var target accel decel : ℚ) : ℚ :=
  if target < var then
    (if var - e.dt * decel < target then target else var - e.dt * decel)
  else if var < target then
    (if target < var + e.dt * accel then target else var + e.dt * accel)
  else var

/-- Modelled from the spec: the body of `FGTurbine::CalcFuelNeed` (declared
at line 170, defined in `FGTurbine.cpp`).  The commanded fuel flow is zero
when the phase is Off or `Cutoff` is true; otherwise it is the idle fuel
flow scaled by a specific-consumption curve evaluated at the current thrust
fraction, plus, when augmentation is active, a term at the augmented
specific-consumption rate.  The curve, the thrust fraction and the
augmented thrust come from outside the header and are parameters. -/
def CalcFuelNeed (tsfcCurve : ℚ → ℚ) (thrustFraction augThrust : ℚ)
    (e : FGTurbine ℚ F B) : ℚ :=
  if e.phase = phaseType.tpOff ∨ e.Cutoff = true then 0
  else e.IdleFF * tsfcCurve thrustFraction +
    (if e.Augmentation = true then e.ATSFC * augThrust else 0)

/-! ## Concrete engines -/

/-- An engine with the constants of a 10000 lbf turbine (idle N1 15 percent,
idle N2 60 percent), stopped, fuel cut off, in the Off phase, no fault. -/
def stoppedEngine : FGTurbine ℚ Nat Unit where
  toFGEngine := ()
  phase := .tpOff
  MilThrust := 10000
  MaxThrust := 15000
  BypassRatio := 0
  TSFC := 4/5
  ATSFC := 17/10
  IdleN1 := 15
  IdleN2 := 60
  N1 := 0
  N2 := 0
  N2norm := 0
  MaxN1 := 100
  MaxN2 := 100
  IdleFF := 700
  delay := 60
  dt := 1/120
  N1_factor := 85
  N2_factor := 40
  ThrottlePos := 0
  AugmentCmd := 0
  TAT := 15
  N1_spinup := 1
  N2_spinup := 3
  Stalled := false
  Seized := false
  Overtemp := false
  Fire := false
  Injection := false
  Augmentation := false
  Reversed := false
  Cutoff := true
  Injected := 0
  Ignition := 0
  Augmented := 1
  AugMethod := 0
  EGT_degC := 15
  EPR := 1
  OilPressure_psi := 0
  OilTemp_degK := 288
  BleedDemand := 0
  InletPosition := 1
  NozzlePosition := 1
  correctedTSFC := 4/5
  InjectionTimer := 0
  InjectionTime := 30
  IdleThrustLookup := 0
  MilThrustLookup := 0
  MaxThrustLookup := 0
  InjectionLookup := 0

/-- The stopped engine with only the `Stalled` flag raised. -/
def stalledEngine : FGTurbine ℚ Nat Unit :=
  { stoppedEngine with Stalled := true }

/-- An engine running at idle with fuel on, moving through a 1/120 s tick. -/
def runningEngine : FGTurbine ℚ Nat Unit :=
  { stoppedEngine with phase := .tpRun, Cutoff := false, N1 := 15, N2 := 60 }

/-- A sequence of control inputs whose phase overrides all name an enumerator. -/
def enumeratedInputs : List (SetterCall ℚ) :=
  [.SetCutoff false, .SetPhase .tpSpinUp, .SetEPR 2, .SetPhase .tpTrim, .SetReverse true]

/-! ## Shared lemmas -/

/-- One mutator call leaves the four fault flags as they were. -/
theorem faultFlags_apply (c : SetterCall D) (e : FGTurbine D F B) :
    faultFlags (c.apply e) = faultFlags e := by
  cases c <;> rfl

/-- A sequence of mutator calls whose phase overrides all name an
enumerator keeps the stored phase an enumerator. -/
theorem phase_enumerated_applySetters (calls : List (SetterCall D)) :
    ∀ e : FGTurbine D F B, e.phase ∈ phaseType.all →
      (∀ p, SetterCall.SetPhase p ∈ calls → p ∈ phaseType.all) →
      (applySetters calls e).phase ∈ phaseType.all := by
  induction calls with
  | nil => intro e h _; exact h
  | cons c cs ih =>
    intro e h hc
    apply ih
    · cases c with
      | SetPhase p => exact hc p (List.mem_cons_self _ _)
      | SetInjection _ => exact h
      | SetIgnition _ => exact h
      | SetAugmentation _ => exact h
      | SetEPR _ => exact h
      | SetBleedDemand _ => exact h
      | SetReverse _ => exact h
      | SetCutoff _ => exact h
    · intro p hp
      exact hc p (List.mem_cons_of_mem c hp)

/-! ## C1: the fault flags are read-only to the mutators -/

/-- C1: every public setter (SetInjection, SetIgnition, SetAugmentation,
SetPhase, SetEPR, SetBleedDemand, SetReverse, SetCutoff), for every engine
and every argument, leaves Stalled, Seized, Overtemp and Fire exactly as
they were; so does every sequence of setter calls, and a flag that is true
before the sequence is true after it. -/
theorem C1_setters_keep_fault_flags (e : FGTurbine D F B) (calls : List (SetterCall D)) :
    (∀ v, faultFlags (SetInjection v e) = faultFlags e) ∧
    (∀ v, faultFlags (SetIgnition v e) = faultFlags e) ∧
    (∀ v, faultFlags (SetAugmentation v e) = faultFlags e) ∧
    (∀ v, faultFlags (SetPhase v e) = faultFlags e) ∧
    (∀ v, faultFlags (SetEPR v e) = faultFlags e) ∧
    (∀ v, faultFlags (SetBleedDemand v e) = faultFlags e) ∧
    (∀ v, faultFlags (SetReverse v e) = faultFlags e) ∧
    (∀ v, faultFlags (SetCutoff v e) = faultFlags e) ∧
    (applySetters calls e).Stalled = e.Stalled ∧
    (applySetters calls e).Seized = e.Seized ∧
    (applySetters calls e).Overtemp = e.Overtemp ∧
    (applySetters calls e).Fire = e.Fire := by
  refine ⟨fun _ => rfl, fun _ => rfl, fun _ => rfl, fun _ => rfl, fun _ => rfl,
    fun _ => rfl, fun _ => rfl, fun _ => rfl, ?_⟩
  have key : faultFlags (applySetters calls e) = faultFlags e := by
    induction calls generalizing e with
    | nil => rfl
    | cons c cs ih =>
      show faultFlags (applySetters cs (c.apply e)) = faultFlags e
      rw [ih, faultFlags_apply]
  simp only [faultFlags, Prod.mk.injEq] at key
  exact key

/-! ## C2: a seized engine and the phase override -/

/-- C3: for every engine and every value v of the argument type, SetInjection(v)
then GetInjection, SetIgnition(v) then GetIgnition, SetAugmentation(v) then
GetAugmentation, SetPhase(v) then GetPhase, SetEPR(v) then GetEPR,
SetBleedDemand(v) then GetBleedDemand, SetReverse(v) then GetReversed and
SetCutoff(v) then GetCutoff each return exactly v. -/
theorem C3_setter_read_back (e : FGTurbine D F B) :
    (∀ v, GetInjection (SetInjection v e) = v) ∧
    (∀ v, GetIgnition (SetIgnition v e) = v) ∧
    (∀ v, GetAugmentation (SetAugmentation v e) = v) ∧
    (∀ v, (GetPhase (SetPhase v e)).1 = v) ∧
    (∀ v, GetEPR (SetEPR v e) = v) ∧
    (∀ v, GetBleedDemand (SetBleedDemand v e) = v) ∧
    (∀ v, GetReversed (SetReverse v e) = v) ∧
    (∀ v, GetCutoff (SetCutoff v e) = v) :=
  ⟨fun _ => rfl, fun _ => rfl, fun _ => rfl, fun _ => rfl, fun _ => rfl,
    fun _ => rfl, fun _ => rfl, fun _ => rfl⟩

/-! ## C4: exactly one phase at a time -/

/-- C4, the claim as stated fails: the value 7 is a value of the phase type
and none of the seven enumerators, the public SetPhase stores it, and
GetPhase then returns it. -/
theorem C4_getphase_returns_value_seven :
    (GetPhase (SetPhase ⟨7⟩ stoppedEngine)).1 = (⟨7⟩ : phaseType) ∧
    (GetPhase (SetPhase ⟨7⟩ stoppedEngine)).1.toInt = 7 ∧
    (GetPhase (SetPhase ⟨7⟩ stoppedEngine)).1 ∉ phaseType.all :=
  ⟨rfl, rfl, by decide⟩

/-- C4, amended: the phase type has the seven pairwise distinct enumerators
Off, Run, SpinUp, Start, Stall, Seize and Trim, of values 0 to 6; GetPhase
returns the single stored phase field; and for every engine whose stored
phase is an enumerator, GetPhase returns exactly one of the seven, before
and after every sequence of setter calls whose SetPhase arguments are
enumerators. -/
theorem C4_exactly_one_phase (e : FGTurbine D F B) (calls : List (SetterCall D))
    (hphase : e.phase ∈ phaseType.all)
    (hcalls : ∀ p, SetterCall.SetPhase p ∈ calls → p ∈ phaseType.all) :
    phaseType.all = [phaseType.tpOff, phaseType.tpRun, phaseType.tpSpinUp,
      phaseType.tpStart, phaseType.tpStall, phaseType.tpSeize, phaseType.tpTrim] ∧
    phaseType.all.length = 7 ∧
    phaseType.all.Nodup ∧
    phaseType.all.map phaseType.toInt = [0, 1, 2, 3, 4, 5, 6] ∧
    (GetPhase e).1 = e.phase ∧
    (∃! p : phaseType, p ∈ phaseType.all ∧ (GetPhase e).1 = p) ∧
    (∃! p : phaseType, p ∈ phaseType.all ∧ (GetPhase (applySetters calls e)).1 = p) := by
  refine ⟨rfl, rfl, by decide, rfl, rfl, ?_, ?_⟩
  · exact ⟨e.phase, ⟨hphase, rfl⟩, fun p hp => hp.2.symm⟩
  · exact ⟨(applySetters calls e).phase,
      ⟨phase_enumerated_applySetters calls e hphase hcalls, rfl⟩, fun p hp => hp.2.symm⟩

/-- C4, amended, at the stopped engine (phase Off) and five control inputs
with the overrides SetPhase(tpSpinUp) and SetPhase(tpTrim): GetPhase
afterwards returns the enumerator Trim and no other. -/
theorem C4_exactly_one_phase_witness :
    stoppedEngine.phase ∈ phaseType.all ∧
    (∀ p, SetterCall.SetPhase p ∈ enumeratedInputs → p ∈ phaseType.all) ∧
    (GetPhase (applySetters enumeratedInputs stoppedEngine)).1 = phaseType.tpTrim ∧
    (∃! p : phaseType, p ∈ phaseType.all ∧
      (GetPhase (applySetters enumeratedInputs stoppedEngine)).1 = p) :=
  have hphase : stoppedEngine.phase ∈ phaseType.all := by decide
  have hcalls : ∀ p, SetterCall.SetPhase p ∈ enumeratedInputs → p ∈ phaseType.all := by
    intro p hp
    have h : p = phaseType.tpSpinUp ∨ p = phaseType.tpTrim := by
      simpa [enumeratedInputs] using hp
    rcases h with h | h <;> rw [h] <;> decide
  ⟨hphase, hcalls, rfl,
    (C4_exactly_one_phase stoppedEngine enumeratedInputs hphase hcalls).2.2.2.2.2.2⟩

/-! ## C5: which fault flags have an accessor -/

/-- C5, the claim as stated fails: the stalled and the stopped engine differ
in the fault flag Stalled, and every one of the seventeen public accessors
returns the same value on both; likewise for the stopped engine with only
Seized raised. -/
theorem C5_no_getter_tells_stalled_apart :
    stalledEngine.Stalled = true ∧ stoppedEngine.Stalled = false ∧
    (∀ (KelvinToFahrenheit : ℚ → ℚ) (g : Getter),
      (callGetter KelvinToFahrenheit g stalledEngine).1
        = (callGetter KelvinToFahrenheit g stoppedEngine).1) ∧
    stoppedEngine.Seized = false ∧
    (∀ (KelvinToFahrenheit : ℚ → ℚ) (g : Getter),
      (callGetter KelvinToFahrenheit g { stoppedEngine with Seized := true }).1
        = (callGetter KelvinToFahrenheit g stoppedEngine).1) :=
  ⟨rfl, rfl, fun _ g => by cases g <;> rfl, rfl, fun _ g => by cases g <;> rfl⟩

/-- C5, amended: the accessors of the header cover the fault flags Overtemp
and Fire only.  For every engine GetOvertemp returns the current Overtemp
and GetFire the current Fire, so two engines that differ in one of these
two flags are told apart by that getter; Stalled and Seized have no getter:
changing only Stalled, or only Seized, changes the value of none of the
seventeen accessors. -/
theorem C5_getters_for_overtemp_and_fire_only (KelvinToFahrenheit : D → D)
    (e : FGTurbine D F B) :
    GetOvertemp e = e.Overtemp ∧
    GetFire e = e.Fire ∧
    (∀ e2 : FGTurbine D F B, e2.Overtemp ≠ e.Overtemp → GetOvertemp e2 ≠ GetOvertemp e) ∧
    (∀ e2 : FGTurbine D F B, e2.Fire ≠ e.Fire → GetFire e2 ≠ GetFire e) ∧
    (∀ (b : Bool) (g : Getter),
      (callGetter KelvinToFahrenheit g { e with Stalled := b }).1
        = (callGetter KelvinToFahrenheit g e).1) ∧
    (∀ (b : Bool) (g : Getter),
      (callGetter KelvinToFahrenheit g { e with Seized := b }).1
        = (callGetter KelvinToFahrenheit g e).1) :=
  ⟨rfl, rfl, fun _ h => h, fun _ h => h, fun _ g => by cases g <;> rfl,
    fun _ g => by cases g <;> rfl⟩

/-! ## C6: the mutators leave the engine constants alone -/

/-- C6: for every engine and every argument, each public setter leaves
MilThrust, MaxThrust, BypassRatio, TSFC, ATSFC, IdleN1, IdleN2, MaxN1,
MaxN2, N1_spinup, N2_spinup, Augmented, AugMethod, Injected and
InjectionTime unchanged. -/
theorem C6_setters_keep_engine_constants (e : FGTurbine D F B) :
    (∀ v, engineConstants (SetInjection v e) = engineConstants e) ∧
    (∀ v, engineConstants (SetIgnition v e) = engineConstants e) ∧
    (∀ v, engineConstants (SetAugmentation v e) = engineConstants e) ∧
    (∀ v, engineConstants (SetPhase v e) = engineConstants e) ∧
    (∀ v, engineConstants (SetEPR v e) = engineConstants e) ∧
    (∀ v, engineConstants (SetBleedDemand v e) = engineConstants e) ∧
    (∀ v, engineConstants (SetReverse v e) = engineConstants e) ∧
    (∀ v, engineConstants (SetCutoff v e) = engineConstants e) ∧
    (∀ c : SetterCall D,
      (c.apply e).MilThrust = e.MilThrust ∧ (c.apply e).MaxThrust = e.MaxThrust ∧
      (c.apply e).BypassRatio = e.BypassRatio ∧ (c.apply e).TSFC = e.TSFC ∧
      (c.apply e).ATSFC = e.ATSFC ∧ (c.apply e).IdleN1 = e.IdleN1 ∧
      (c.apply e).IdleN2 = e.IdleN2 ∧ (c.apply e).MaxN1 = e.MaxN1 ∧
      (c.apply e).MaxN2 = e.MaxN2 ∧ (c.apply e).N1_spinup = e.N1_spinup ∧
      (c.apply e).N2_spinup = e.N2_spinup ∧ (c.apply e).Augmented = e.Augmented ∧
      (c.apply e).AugMethod = e.AugMethod ∧ (c.apply e).Injected = e.Injected ∧
      (c.apply e).InjectionTime = e.InjectionTime) := by
  refine ⟨fun _ => rfl, fun _ => rfl, fun _ => rfl, fun _ => rfl, fun _ => rfl,
    fun _ => rfl, fun _ => rfl, fun _ => rfl, ?_⟩
  intro c
  cases c <;> exact ⟨rfl, rfl, rfl, rfl, rfl, rfl, rfl, rfl, rfl, rfl, rfl, rfl, rfl, rfl, rfl⟩

/-! ## C9: the accessors are read-only -/

/-- C9: for every engine each public getter returns the value of the one
field it names (getOilTemp_degF the Fahrenheit conversion of OilTemp_degK)
and leaves the whole engine unchanged, the two getters that are not
declared const, GetPhase and getOilTemp_degF, included. -/
theorem C9_getters_read_only (KelvinToFahrenheit : D → D) (e : FGTurbine D F B) :
    GetPhase e = (e.phase, e) ∧
    getOilTemp_degF KelvinToFahrenheit e = (KelvinToFahrenheit e.OilTemp_degK, e) ∧
    GetOvertemp e = e.Overtemp ∧
    GetInjection e = e.Injection ∧
    GetFire e = e.Fire ∧
    GetAugmentation e = e.Augmentation ∧
    GetReversed e = e.Reversed ∧
    GetCutoff e = e.Cutoff ∧
    GetIgnition e = e.Ignition ∧
    GetInlet e = e.InletPosition ∧
    GetNozzle e = e.NozzlePosition ∧
    GetBleedDemand e = e.BleedDemand ∧
    GetN1 e = e.N1 ∧
    GetN2 e = e.N2 ∧
    GetEPR e = e.EPR ∧
    GetEGT e = e.EGT_degC ∧
    getOilPressure_psi e = e.OilPressure_psi ∧
    (∀ g : Getter, (callGetter KelvinToFahrenheit g e).2 = e) := by
  refine ⟨rfl, rfl, rfl, rfl, rfl, rfl, rfl, rfl, rfl, rfl, rfl, rfl, rfl, rfl, rfl, rfl,
    rfl, ?_⟩
  intro g
  cases g <;> rfl

/-! ## C10: order and repetition of the control-input setters -/

/-- C10: for every engine, two calls to different setters yield the same
engine in either order (for instance SetCutoff(a) and SetReverse(b)), and
two calls to the same setter yield the engine of the last call alone. -/
theorem C10_setters_commute_and_last_wins (e : FGTurbine D F B) (c1 c2 : SetterCall D) :
    (c1.name ≠ c2.name → c2.apply (c1.apply e) = c1.apply (c2.apply e)) ∧
    (c1.name = c2.name → c2.apply (c1.apply e) = c2.apply e) ∧
    (∀ a b, SetReverse b (SetCutoff a e) = SetCutoff a (SetReverse b e)) := by
  refine ⟨?_, ?_, fun _ _ => rfl⟩
  · intro h
    cases c1 <;> cases c2 <;> first | rfl | exact absurd rfl h
  · intro h
    cases c1 <;> cases c2 <;> first | rfl | simp [SetterCall.name] at h

/-- C10 at the stopped engine: SetCutoff(false) and SetPhase(tpSpinUp) in
either order, and SetEPR(2) followed by SetEPR(3). -/
theorem C10_setters_commute_and_last_wins_witness :
    SetPhase phaseType.tpSpinUp (SetCutoff false stoppedEngine)
      = SetCutoff false (SetPhase phaseType.tpSpinUp stoppedEngine) ∧
    SetEPR 3 (SetEPR 2 stoppedEngine) = SetEPR 3 stoppedEngine :=
  ⟨(C10_setters_commute_and_last_wins stoppedEngine (SetterCall.SetCutoff false)
      (SetterCall.SetPhase phaseType.tpSpinUp)).1 (by decide),
    (C10_setters_commute_and_last_wins stoppedEngine (SetterCall.SetEPR 2)
      (SetterCall.SetEPR 3)).2.1 rfl⟩

/-! ## C7: the rate limiter -/

/-- C7: for all current values c, targets t, rates accel and decel that
are not negative and a time step dt that is not negative, the value Seek
returns lies between c and t inclusive, and its distance from c is at most
max(accel, decel) times dt. -/
theorem C7_seek_rate_limiter_bound (e : FGTurbine ℚ F B) (c t accel decel : ℚ)
    (haccel : 0 ≤ accel) (hdecel : 0 ≤ decel) (hdt : 0 ≤ e.dt) :
    min c t ≤ Seek e c t accel decel ∧
    Seek e c t accel decel ≤ max c t ∧
    |Seek e c t accel decel - c| ≤ max accel decel * e.dt := by
  have hup : e.dt * accel ≤ max accel decel * e.dt := by
    rw [mul_comm]
    exact mul_le_mul_of_nonneg_right (le_max_left _ _) hdt
  have hdown : e.dt * decel ≤ max accel decel * e.dt := by
    rw [mul_comm]
    exact mul_le_mul_of_nonneg_right (le_max_right _ _) hdt
  have ha : 0 ≤ e.dt * accel := mul_nonneg hdt haccel
  have hd : 0 ≤ e.dt * decel := mul_nonneg hdt hdecel
  unfold Seek
  split_ifs with h1 h2 h3 h4
  · refine ⟨min_le_right _ _, le_max_right _ _, ?_⟩
    rw [abs_le]; constructor <;> linarith
  · refine ⟨?_, ?_, ?_⟩
    · rw [min_eq_right h1.le]; linarith
    · rw [max_eq_left h1.le]; linarith
    · rw [abs_le]; constructor <;> linarith
  · refine ⟨min_le_right _ _, le_max_right _ _, ?_⟩
    rw [abs_le]; constructor <;> linarith
  · refine ⟨?_, ?_, ?_⟩
    · rw [min_eq_left h3.le]; linarith
    · rw [max_eq_right h3.le]; linarith
    · rw [abs_le]; constructor <;> linarith
  · refine ⟨min_le_left _ _, le_max_left _ _, ?_⟩
    rw [sub_self, abs_zero]
    exact le_trans ha hup

/-- C7 at the running engine (dt = 1/120 s): N2 at 60 seeking 100 with
rates 12 and 24 per second moves to 60.1. -/
theorem C7_seek_rate_limiter_bound_witness :
    (0 : ℚ) ≤ 12 ∧ (0 : ℚ) ≤ 24 ∧ 0 ≤ runningEngine.dt ∧
    Seek runningEngine 60 100 12 24 = 601 / 10 ∧
    min (60 : ℚ) 100 ≤ Seek runningEngine 60 100 12 24 ∧
    Seek runningEngine 60 100 12 24 ≤ max (60 : ℚ) 100 ∧
    |Seek runningEngine 60 100 12 24 - 60| ≤ max (12 : ℚ) 24 * runningEngine.dt :=
  ⟨by norm_num, by norm_num, by norm_num [runningEngine, stoppedEngine],
    by norm_num [Seek, runningEngine, stoppedEngine],
    C7_seek_rate_limiter_bound runningEngine 60 100 12 24 (by norm_num) (by norm_num)
      (by norm_num [runningEngine, stoppedEngine])⟩

/-! ## C8: no fuel flow when off or cut off -/

/-- C8: for every engine whose phase is Off or whose Cutoff is true, and
for any throttle position, CalcFuelNeed returns exactly 0. -/
theorem C8_no_fuel_when_off_or_cutoff (tsfcCurve : ℚ → ℚ)
    (thrustFraction augThrust throttle : ℚ) (e : FGTurbine ℚ F B)
    (h : e.phase = phaseType.tpOff ∨ e.Cutoff = true) :
    CalcFuelNeed tsfcCurve thrustFraction augThrust e = 0 ∧
    CalcFuelNeed tsfcCurve thrustFraction augThrust { e with ThrottlePos := throttle } = 0 := by
  constructor
  · unfold CalcFuelNeed
    rw [if_pos h]
  · unfold CalcFuelNeed
    rw [if_pos h]

/-- C8 at the running engine with the fuel cut off and the throttle fully
open; with the fuel on the same engine asks for its idle flow. -/
theorem C8_no_fuel_when_off_or_cutoff_witness :
    ((SetCutoff true runningEngine).phase = phaseType.tpOff ∨
      (SetCutoff true runningEngine).Cutoff = true) ∧
    CalcFuelNeed (fun _ => 1) 0 0 (SetCutoff true runningEngine) = 0 ∧
    CalcFuelNeed (fun _ => 1) 0 0
      { SetCutoff true runningEngine with ThrottlePos := 1 } = 0 ∧
    CalcFuelNeed (fun _ => 1) 0 0 runningEngine = 700 :=
  ⟨Or.inr rfl,
    (C8_no_fuel_when_off_or_cutoff (fun _ => 1) 0 0 1 (SetCutoff true runningEngine)
      (Or.inr rfl)).1,
    (C8_no_fuel_when_off_or_cutoff (fun _ => 1) 0 0 1 (SetCutoff true runningEngine)
      (Or.inr rfl)).2,
    by simp [CalcFuelNeed, runningEngine, stoppedEngine]; decide⟩

end JSBSim
